import Mathlib

/-!
Verification development for the FITS codec glue layer in `yfitsio.c`.

The C source is a thin, carefully structured dispatch layer over the CFITSIO
library.  Pure logic of the C source (argument validation, value-type
inference, shape arithmetic, control flow around status codes) is embedded
directly.  Behaviour of external CFITSIO/libc routines that the source calls
(`strtol`, `strtod`, `sscanf`, `ffc2s`, `fits_movabs_hdu`,
`fits_get_colnum`, `fits_decode_chksum`) is modelled from the specification
of those routines, as noted on each definition.

Strings are modelled as `List Char`; `y_error(msg)` is modelled as
`Except.error msg`; values pushed on the interpreter stack are modelled by
explicit result types.
-/

deriving instance DecidableEq for Except

/-- `IS_WHITE(c)` from yfitsio.c: `'\t' <= c && c <= '\r'` (codes 9..13). -/
def IS_WHITE (c : Char) : Bool := 9 ≤ c.toNat && c.toNat ≤ 13

/-- `IS_SPACE(c)` from yfitsio.c: a blank (code 32) or `IS_WHITE`. -/
def IS_SPACE (c : Char) : Bool := c.toNat = 32 || IS_WHITE c

/-- The apostrophe character (code 39). -/
def chQuote : Char := Char.ofNat 39

/-- The opening parenthesis character (code 40). -/
def chOpen : Char := Char.ofNat 40

/-- The closing parenthesis character (code 41). -/
def chClose : Char := Char.ofNat 41

/-- The comma character (code 44). -/
def chComma : Char := Char.ofNat 44

/-- The blank character (code 32). -/
def chSpace : Char := Char.ofNat 32

/-- `trim_string` from yfitsio.c: remove leading and trailing spaces
(interior characters, blanks included, are kept). -/
def trim_string (src : List Char) : List Char :=
  ((src.dropWhile (fun c => IS_SPACE c)).reverse.dropWhile (fun c => IS_SPACE c)).reverse

/-- Value of a decimal digit character, if it is one. -/
def digitVal (c : Char) : Option Nat :=
  if 48 ≤ c.toNat ∧ c.toNat ≤ 57 then some (c.toNat - 48) else none

/-- Split the longest run of leading decimal digits (as digit values). -/
def parseDigits : List Char → List Nat × List Char
  | [] => ([], [])
  | c :: rest =>
    match digitVal c with
    | some d =>
      let (ds, r) := parseDigits rest
      (d :: ds, r)
    | none => ([], c :: rest)

/-- Numeric value of a digit list (most significant first). -/
def digitsToNat (ds : List Nat) : Nat :=
  ds.foldl (fun acc d => 10 * acc + d) 0

/-- Consume an optional sign, returning `1` or `-1`. -/
def parseSign : List Char → Int × List Char
  | c :: rest =>
    if c = '+' then (1, rest)
    else if c = '-' then (-1, rest)
    else (1, c :: rest)
  | [] => (1, [])

/-- Skip leading spaces (as `sscanf`/`strtol`/`strtod` do). -/
def skipWS (s : List Char) : List Char := s.dropWhile (fun c => IS_SPACE c)

/-- Modelled from the spec: ISO C `strtol(s, &end, 10)`: skip spaces, optional
sign, then the longest run of decimal digits.  Returns `none` (with the whole
input as the end pointer) when no digits were consumed.  Values are unbounded
here; the source only tests whether the end pointer reached the terminator. -/
def strtol_model (s : List Char) : Option Int × List Char :=
  let s0 := skipWS s
  let (sgn, s1) := parseSign s0
  let (ds, s2) := parseDigits s1
  if ds = [] then (none, s)
  else (some (sgn * (digitsToNat ds : Int)), s2)

/-- A decimal floating value `mant * 10 ^ exp10`, exactly as parsed. -/
structure Dec10 where
  mant : Int
  exp10 : Int
deriving Repr, DecidableEq

/-- Rational value denoted by a `Dec10`. -/
def decVal (x : Dec10) : ℚ := (x.mant : ℚ) * 10 ^ x.exp10

/-- Modelled from the spec: ISO C `strtod` on a decimal subject sequence:
skip spaces, optional sign, digits with an optional fractional part (at least
one digit overall), then an optional exponent `e`/`E` with optional sign and
at least one digit (otherwise the exponent characters are not consumed).
Returns the exactly represented value and the unconsumed tail, or `none`
(with the whole input as end pointer) when no subject sequence was found.
Hexadecimal, infinity and NaN forms cannot occur in the tokens the source
feeds to `strtod` and are not modelled. -/
def strtod_model (s : List Char) : Option Dec10 × List Char :=
  let s0 := skipWS s
  let (sgn, s1) := parseSign s0
  let (ip, s2) := parseDigits s1
  let (fp, s3) :=
    match s2 with
    | c :: r => if c = '.' then parseDigits r else ([], s2)
    | [] => ([], s2)
  if ip = [] ∧ fp = [] then (none, s)
  else
    let mant : Int := sgn * (digitsToNat (ip ++ fp) : Int)
    let noExp : Option Dec10 × List Char :=
      (some ⟨mant, -(fp.length : Int)⟩, s3)
    match s3 with
    | c :: r =>
      if c = 'e' ∨ c = 'E' then
        let (esgn, r1) := parseSign r
        let (eds, r2) := parseDigits r1
        if eds = [] then noExp
        else (some ⟨mant, esgn * (digitsToNat eds : Int) - (fp.length : Int)⟩, r2)
      else noExp
    | [] => noExp

/-- Result of `push_key_value`: the typed value pushed on the stack. -/
inductive YValue where
  /-- `push_string(NULL)`: undefined value. -/
  | nil
  /-- `ypush_int(TRUE/FALSE)`: logical value. -/
  | logical (b : Bool)
  /-- `push_string`: string value. -/
  | str (s : List Char)
  /-- `push_complex(re, im)`. -/
  | complex (re im : Dec10)
  /-- `ypush_double`. -/
  | real (x : Dec10)
  /-- `ypush_long`. -/
  | integer (n : Int)
deriving Repr, DecidableEq

/-- Modelled from the spec: CFITSIO `ffc2s` body scan on the characters after
the opening quote: a doubled apostrophe is un-escaped to a single one, a
single apostrophe closes the string and the rest is discarded. -/
def ffc2s_scan : List Char → List Char
  | [] => []
  | c :: rest =>
    if c = chQuote then
      match rest with
      | c2 :: rest2 => if c2 = chQuote then chQuote :: ffc2s_scan rest2 else []
      | [] => []
    else c :: ffc2s_scan rest

/-- Modelled from the spec: CFITSIO `ffc2s` on a quoted token: drop the
opening quote and un-escape doubled apostrophes up to the closing quote. -/
def ffc2s (s : List Char) : List Char := ffc2s_scan s.tail

/-- Modelled from the spec: `sscanf(buffer + 1, "%lf ,%lf )%1c", ...) == 2`
from `push_key_value`.  The two `%lf` conversions skip leading spaces; the
blanks in the format skip spaces; the scan stops at the first mismatch, and
the result is accepted exactly when both numbers (and the comma between
them) were converted and no character was available for `%1c` after a
matched closing parenthesis. -/
def scan_complex (s : List Char) : Option (Dec10 × Dec10) :=
  match strtod_model (skipWS s) with
  | (none, _) => none
  | (some re, s1) =>
    match skipWS s1 with
    | [] => none
    | c :: s2 =>
      if c = chComma then
        match strtod_model (skipWS s2) with
        | (none, _) => none
        | (some im, s3) =>
          match skipWS s3 with
          | [] => some (re, im)
          | c2 :: s4 =>
            if c2 = chClose then
              match s4 with
              | [] => some (re, im)
              | _ :: _ => none
            else some (re, im)
      else none

/-- Is `c` one of the real-number marker characters scanned for in the
default branch of `push_key_value`? -/
def isRealMarker (c : Char) : Bool :=
  c = '.' || c = 'E' || c = 'e' || c = 'D' || c = 'd'

/-- The one-pass scan of the default branch of `push_key_value`: is any
real-number marker present? -/
def hasRealMarker (s : List Char) : Bool := s.any isRealMarker

/-- The in-place rewrite of the default branch of `push_key_value`:
`D`/`d` is replaced by `E` before the real parse. -/
def normalizeD (s : List Char) : List Char :=
  s.map (fun c => if c = 'D' ∨ c = 'd' then 'E' else c)

/-- The default (numeric) branch of `push_key_value`: scan for markers,
normalize `D`/`d` to `E`, then parse a real (`strtod`) or an integer
(`strtol`); any unconsumed tail is the hard error `invalid keyword value`. -/
def numeric_branch (s : List Char) : Except String YValue :=
  if hasRealMarker s then
    match strtod_model (normalizeD s) with
    | (some x, []) => .ok (.real x)
    | _ => .error "invalid keyword value"
  else
    match strtol_model s with
    | (some n, []) => .ok (.integer n)
    | _ => .error "invalid keyword value"

/-- `push_key_value` from yfitsio.c: trim the raw value token, then infer its
type from its lexical form and push the corresponding typed value. -/
def push_key_value (value : Option (List Char)) : Except String YValue :=
  match value with
  | none => .ok .nil
  | some v =>
    let buffer := trim_string v
    match buffer with
    | [] => .ok .nil
    | c :: _ =>
      if c = 'T' ∨ c = 't' then
        if buffer.length = 1 then .ok (.logical true)
        else .error "invalid keyword value"
      else if c = 'F' ∨ c = 'f' then
        if buffer.length = 1 then .ok (.logical false)
        else .error "invalid keyword value"
      else if c = chQuote then
        if 2 ≤ buffer.length ∧ buffer.getLast? = some chQuote then
          .ok (.str (ffc2s buffer))
        else .error "invalid keyword value"
      else if c = chOpen then
        match scan_complex buffer.tail with
        | some (re, im) => .ok (.complex re im)
        | none => .error "invalid keyword value"
      else numeric_branch buffer

/-! ## Image sub-array reads (`Y_fitsio_read_img`) -/

/-- A Yorick integer argument bound to a keyword: a scalar or a vector
(higher ranks are rejected where the source checks the rank). -/
inductive YArg where
  | scalar (n : Int)
  | vector (v : List Int)
deriving Repr, DecidableEq

/-- The elements delivered by `ygeta_l`: a scalar is a one-element array. -/
def yarg_elems : YArg → List Int
  | .scalar n => [n]
  | .vector v => v

/-- What `Y_fitsio_read_img` decides to read (and the shape pushed). -/
inductive ImgRead where
  /-- whole array, shaped as the descriptor axes -/
  | full (dims : List Int)
  /-- rectangular sub-array with the computed per-axis sub-lengths -/
  | rect (dims : List Int)
  /-- flat interval of `number` elements -/
  | flat (number : Int)
  /-- `ypush_nil()` (no data, or an empty flat interval) -/
  | nothing
deriving Repr, DecidableEq

/-- The per-axis validation loop of the rectangular branch of
`Y_fitsio_read_img`: each axis requires
`1 <= first <= last <= axisLen`, `incr >= 1` and
`(last - first + 1) % incr == 0`, and contributes sub-length
`(last - first + 1) / incr`. -/
def rect_dims : List Int → List Int → List Int → List Int → Except String (List Int)
  | [], _, _, _ => .ok []
  | f :: fs, l :: ls, i :: js, d :: ds =>
    if f < 1 ∨ f > l ∨ l > d ∨ i < 1 ∨ (l - f + 1) % i ≠ 0 then
      .error "bad sub-array parameters (FIRST, LAST, INCR)"
    else
      match rect_dims fs ls js ds with
      | .ok rest => .ok ((l - f + 1) / i :: rest)
      | .error e => .error e
  | _, _, _, _ => .error "bad sub-array parameters (FIRST, LAST, INCR)"

/-- The argument-validation and shape logic of `Y_fitsio_read_img` from
yfitsio.c.  `dims` are the image axis lengths (`naxis = dims.length` axes)
and `ntot` their product, as computed by `get_image_param`; `first`, `last`,
`incr`, `number` are the keyword arguments (absent or bound). -/
def Y_fitsio_read_img (dims : List Int) (ntot : Int)
    (first last incr number : Option YArg) : Except String ImgRead :=
  let naxis := dims.length
  let mode := (if first.isSome then 1 else 0) + (if last.isSome then 2 else 0)
      + (if incr.isSome then 4 else 0) + (if number.isSome then 8 else 0)
  if naxis = 0 then .ok .nothing
  else if mode = 0 then .ok (.full dims)
  else if mode = 3 ∨ mode = 7 then
    match first, last with
    | some farg, some larg =>
      let fpix := yarg_elems farg
      if fpix.length ≠ naxis then
        .error "bad number of coordinates for keyword FIRST"
      else
        let lpix := yarg_elems larg
        if lpix.length ≠ naxis then
          .error "bad number of coordinates for keyword LAST"
        else
          let ipixE : Except String (List Int) :=
            match incr with
            | none => .ok (List.replicate naxis 1)
            | some iarg =>
              let v := yarg_elems iarg
              if v.length ≠ naxis then
                .error "bad number of coordinates for keyword INCR"
              else .ok v
          match ipixE with
          | .error e => .error e
          | .ok ipix =>
            match rect_dims fpix lpix ipix dims with
            | .ok sub => .ok (.rect sub)
            | .error e => .error e
    | _, _ => .error "bad combination of keywords FIRST, LAST, INCR, or NUMBER"
  else if mode = 9 then
    match first, number with
    | some (.scalar f), some (.scalar num) =>
      if f < 1 ∨ num < 0 ∨ f - 1 + num > ntot then
        .error "bad range of array elements"
      else if num = 0 then .ok .nothing
      else .ok (.flat num)
    | _, _ => .error "expecting a scalar integer"
  else .error "bad combination of keywords FIRST, LAST, INCR, or NUMBER"

/-- The per-axis admissibility condition of a rectangular sub-array read,
as checked by `rect_dims`. -/
def axisOK (f l i d : Int) : Prop :=
  1 ≤ f ∧ f ≤ l ∧ l ≤ d ∧ 1 ≤ i ∧ (l - f + 1) % i = 0

instance (f l i d : Int) : Decidable (axisOK f l i d) := by
  unfold axisOK; infer_instance

/-! ## Table column designation (`get_colnum`, `Y_fitsio_get_colnum`) -/

/-- Case folding on character codes: lower-case ASCII letters are mapped to
upper case when the comparison is case-insensitive. -/
def foldCode (casesen : Bool) (n : Nat) : Nat :=
  if casesen then n else if 97 ≤ n ∧ n ≤ 122 then n - 32 else n

/-- Case-folded character codes of a column name. -/
def foldName (casesen : Bool) (s : List Char) : List Nat :=
  s.map (fun c => foldCode casesen c.toNat)

/-- Does the first code list match the beginning of the second? -/
def codes_lead : List Nat → List Nat → Bool
  | [], _ => true
  | _ :: _, [] => false
  | t :: ts, n :: ns => t = n && codes_lead ts ns

/-- Modelled from the spec: the column-name template matching of the
underlying format (`fits_get_colnum` / `fits_get_colname`): names are
compared case-folded unless case-sensitive matching is requested, and a
template matches a column whose name it equals or begins
(the prefix rule of the template grammar, per the specification example
where template FLUX matches both FLUX and FLUX_ERR). -/
def name_matches (casesen : Bool) (template nm : List Char) : Bool :=
  codes_lead (foldName casesen template) (foldName casesen nm)

/-- 1-based numbers of the columns matching a template, in declaration
order, starting the numbering at `k`. -/
def column_matches_from (casesen : Bool) (template : List Char) :
    List (List Char) → Int → List Int
  | [], _ => []
  | nm :: rest, k =>
    if name_matches casesen template nm then
      k :: column_matches_from casesen template rest (k + 1)
    else column_matches_from casesen template rest (k + 1)

/-- 1-based numbers of the columns matching a template, in declaration
order. -/
def column_matches (casesen : Bool) (template : List Char)
    (names : List (List Char)) : List Int :=
  column_matches_from casesen template names 1

/-- Result pushed by `Y_fitsio_get_colnum`. -/
inductive ColnumResult where
  /-- `ypush_nil()`: no matching column -/
  | nil
  /-- `ypush_long(colnum)`: unique match -/
  | one (c : Int)
  /-- array of all candidate column numbers -/
  | many (cs : List Int)
deriving Repr, DecidableEq

/-- The counting loop of `Y_fitsio_get_colnum`: with the search protocol
having already returned one match with status `COL_NOT_UNIQUE` and
`remaining` further matches to come, count the candidates (the loop body
increments the counter, then asks for the next match; the scan ends on
`COL_NOT_FOUND`). -/
def colnum_count_loop : List Int → Nat → Nat
  | [], ncols => ncols + 1
  | _ :: rest, ncols => colnum_count_loop rest (ncols + 1)

/-- The filling loop of `Y_fitsio_get_colnum`: restart the search and store
`n` candidate column numbers; every call must report `COL_NOT_UNIQUE`,
anything else is a hard error. -/
def colnum_fill_loop : Nat → List Int → Except String (List Int)
  | 0, _ => .ok []
  | _ + 1, [] => .error "COL_NOT_FOUND"
  | n + 1, c :: rest =>
    match colnum_fill_loop n rest with
    | .ok l => .ok (c :: l)
    | .error e => .error e

/-- `Y_fitsio_get_colnum` from yfitsio.c: resolve a column-name template
against the table.  The first probe returns the unique match (status 0),
no match (`COL_NOT_FOUND`, pushed as nil), or the first of several matches
(`COL_NOT_UNIQUE`), in which case the candidates are counted and then
collected into an array.  `casesen` defaults to case-insensitive. -/
def Y_fitsio_get_colnum (casesen : Bool) (template : List Char)
    (names : List (List Char)) : Except String ColnumResult :=
  if template = [] then .error "invalid TEMPLATE string"
  else
    match column_matches casesen template names with
    | [] => .ok .nil
    | [c] => .ok (.one c)
    | c1 :: c2 :: rest =>
      let ncols := colnum_count_loop (c2 :: rest) 0
      match colnum_fill_loop ncols (c1 :: c2 :: rest) with
      | .ok l => .ok (.many l)
      | .error e => .error e

/-- A column designator on the stack: a 1-based number or a name. -/
inductive ColSpec where
  | num (n : Int)
  | name (s : List Char)
deriving Repr, DecidableEq

/-- `get_colnum` from yfitsio.c: the column designation used by the table
data operations.  A number is range-checked against the column count; a
name is resolved with `CASEINSEN` hard-wired, and both no match and more
than one match are hard errors. -/
def get_colnum (spec : ColSpec) (names : List (List Char)) :
    Except String Int :=
  match spec with
  | .num n =>
    if n < 1 ∨ n > (names.length : Int) then
      .error "out of range column number"
    else .ok n
  | .name s =>
    if s = [] then .error "column name not found"
    else
      match column_matches false s names with
      | [] => .error "column name not found"
      | [c] => .ok c
      | _ :: _ :: _ => .error "COL_NOT_UNIQUE"

/-! ## Table column reads and writes (`Y_fitsio_read_col`, `Y_fitsio_write_col`) -/

/-- `Y_DIMSIZE` from yapi.h: maximum length of a Yorick dimension list
(one count slot plus up to 10 dimensions). -/
def Y_DIMSIZE : Nat := 11

/-- CFITSIO data-type code `TSTRING` (fitsio.h). -/
def TSTRING : Int := 16

/-- Yorick array type tags, as dispatched on by the source. -/
inductive YType where
  | ychar | yshort | yint | ylong | yfloat | ydouble | ycomplex | ystring
  /-- any type the source's switch rejects -/
  | yother
deriving Repr, DecidableEq

/-- The row-range and result-shape logic of `Y_fitsio_read_col` from
yfitsio.c.  `nrows` is the table row count, `coltype`/`width` come from
`fits_get_eqcoltype` (negative `coltype` flags a variable-length column),
`tdim` is the cell shape from `fits_read_tdim`, and `firstrow0`/`lastrow0`
are the optional positional row-range arguments (defaulting to `1` and
`nrows`).  Returns the dimension list of the array pushed. -/
def Y_fitsio_read_col (nrows coltype width : Int) (tdim : List Int)
    (firstrow0 lastrow0 : Option Int) : Except String (List Int) :=
  if coltype < 0 then .error "variable size arrays not yet supported"
  else
    let firstrow := firstrow0.getD 1
    let lastrow := lastrow0.getD nrows
    if firstrow < 1 ∨ firstrow > lastrow ∨ lastrow > nrows then
      .error "invalid range of rows"
    else
      let cellE : Except String (List Int) :=
        if coltype = TSTRING then
          match tdim with
          | [] => .error "assumption failed!"
          | d1 :: rest =>
            if d1 ≠ width then .error "assumption failed!" else .ok rest
        else .ok (if tdim = [1] then [] else tdim)
      match cellE with
      | .error e => .error e
      | .ok cell =>
        if firstrow < lastrow then
          if Y_DIMSIZE - 1 ≤ cell.length then .error "too many dimensions"
          else .ok (cell ++ [lastrow - firstrow + 1])
        else .ok cell

/-- The leading-dimension check of `Y_fitsio_write_col`: every cell
dimension must equal the corresponding leading dimension of the data. -/
def leading_dims_match : List Int → List Int → Bool
  | [], _ => true
  | _ :: _, [] => false
  | a :: as2, b :: bs => a = b && leading_dims_match as2 bs

/-- The cell-shape derivation of `Y_fitsio_write_col`: a string column
requires string data and sheds its leading character-width dimension;
other columns collapse a `[1]` cell shape to a scalar and reject data
types the source's switch does not support. -/
def write_cell_shape (coltype width : Int) (tdim : List Int)
    (ytype : YType) : Except String (List Int) :=
  if coltype = TSTRING then
    if ytype ≠ .ystring then
      .error "expecting array of strings for this column"
    else
      match tdim with
      | [] => .error "assumption failed!"
      | d1 :: rest =>
        if d1 ≠ width then .error "assumption failed!" else .ok rest
  else
    if ytype = .yother then .error "unsupported array type"
    else .ok (if tdim = [1] then [] else tdim)

/-- The pre-write validation of `Y_fitsio_write_col` from yfitsio.c:
variable-length columns are rejected outright; then the cell shape is
derived (`write_cell_shape`), the data's rank must be the cell rank or one
more, and every cell dimension must match the corresponding leading data
dimension exactly. -/
def Y_fitsio_write_col (coltype width : Int) (tdim : List Int)
    (srcdims : List Int) (ytype : YType) : Except String Unit :=
  if coltype < 0 then
    .error "writing variable size arrays not yet implemented"
  else
    match write_cell_shape coltype width tdim ytype with
    | .error e => .error e
    | .ok naxes =>
      if srcdims.length ≠ naxes.length + 1 ∧ srcdims.length ≠ naxes.length then
        .error "incompatible number of dimensions"
      else if ¬ leading_dims_match naxes srcdims then
        .error "non matching dimension(s)"
      else .ok ()

/-! ## Table creation (`check_ncols`, `Y_fitsio_create_tbl`) -/

/-- `check_ncols` from yfitsio.c: reconcile the column count with the
length of one more argument array.  A count already fixed by an earlier
array must be matched exactly; otherwise the length is adopted (the store
into the `int` field fails on overflow). -/
def check_ncols (tfields ntot : Int) : Except String Int :=
  if tfields > 0 then
    if tfields ≠ ntot then .error "number of columns mismatch" else .ok tfields
  else
    if ntot < -(2 ^ 31) ∨ 2 ^ 31 ≤ ntot then
      .error "too many columns (integer overflow)"
    else .ok ntot

/-- The column-count reconciliation of `Y_fitsio_create_tbl` from
yfitsio.c: `tfields` starts at `-1` and each given argument array
(`TTYPE`, `TFORM`, and the `TUNIT` keyword when present) passes its length
through `check_ncols` before `fits_create_tbl` is called with the final
count.  Returns the count handed to `fits_create_tbl`. -/
def Y_fitsio_create_tbl (ttypeLen tformLen : Int) (tunitLen : Option Int) :
    Except String Int :=
  match check_ncols (-1) ttypeLen with
  | .error e => .error e
  | .ok t1 =>
    match check_ncols t1 tformLen with
    | .error e => .error e
    | .ok t2 =>
      match tunitLen with
      | none => .ok t2
      | some u => check_ncols t2 u

/-! ## HDU navigation (`Y_fitsio_movabs_hdu`) -/

/-- CFITSIO status code `BAD_HDU_NUM` (fitsio.h). -/
def BAD_HDU_NUM : Int := 301

/-- Modelled from the spec: `fits_movabs_hdu` succeeds landing on HDU `n`,
reporting its type, exactly when `1 <= n <= count` (the HDU numbering of
the unit list), and otherwise fails with status `BAD_HDU_NUM`. -/
def fits_movabs_hdu (hduTypes : List Int) (n : Int) : Except Int Int :=
  if 1 ≤ n ∧ n ≤ (hduTypes.length : Int) then
    .ok (hduTypes.getD (n.toNat - 1) 0)
  else .error BAD_HDU_NUM

/-- `Y_fitsio_movabs_hdu` from yfitsio.c: a non-positive HDU number is a
hard error in every call mode; otherwise the move is attempted, a
`BAD_HDU_NUM` failure yields the sentinel `-1` when called as a function
(`subroutine = false`) and a hard error when called as a subroutine, and
any other failure is always a hard error. -/
def Y_fitsio_movabs_hdu (hduTypes : List Int) (n : Int)
    (subroutine : Bool) : Except String Int :=
  if n ≤ 0 then .error "invalid HDU number"
  else
    match fits_movabs_hdu hduTypes n with
    | .ok t => .ok t
    | .error st =>
      if st ≠ BAD_HDU_NUM ∨ subroutine then .error "BAD_HDU_NUM"
      else .ok (-1)

/-! ## Closing a handle (`yfits_free`, `Y_fitsio_close_file`) -/

/-- The FITS handle instance: `fptr` is the underlying CFITSIO stream, or
`none` once the handle has been closed. -/
structure YFitsObj where
  fptr : Option Nat
deriving Repr, DecidableEq

/-- Everything observable about one close attempt: the updated handle, the
underlying streams actually passed to `fits_close_file`, the messages
printed by `fits_report_error`, and the error raised, if any. -/
structure CloseOutcome where
  state : YFitsObj
  closedFiles : List Nat
  log : List String
  result : Except String Unit
deriving Repr, DecidableEq

/-- `yfits_free` from yfitsio.c (the destructor): if the handle is still
open, mark it closed, then close the underlying stream; a failure there is
only printed, never thrown.  `closeOk` is whether `fits_close_file`
succeeds. -/
def yfits_free (obj : YFitsObj) (closeOk : Bool) : CloseOutcome :=
  match obj.fptr with
  | none => ⟨obj, [], [], .ok ()⟩
  | some f =>
    ⟨⟨none⟩, [f], if closeOk then [] else ["fits_report_error"], .ok ()⟩

/-- `Y_fitsio_close_file` from yfitsio.c (the explicit close): an already
closed handle is accepted and nothing happens; an open handle is marked
closed, then the underlying stream is closed, and a failure there is
thrown. -/
def Y_fitsio_close_file (obj : YFitsObj) (closeOk : Bool) : CloseOutcome :=
  match obj.fptr with
  | none => ⟨obj, [], [], .ok ()⟩
  | some f =>
    ⟨⟨none⟩, [f], [], if closeOk then .ok () else .error "fits close error"⟩

/-- One close-path invocation on a handle: the explicit builtin or the
destructor, each with the success of the underlying close. -/
inductive CloseOp where
  | explicitClose (closeOk : Bool)
  | implicitFree (closeOk : Bool)
deriving Repr, DecidableEq

/-- Run one close-path invocation. -/
def run_close_op (obj : YFitsObj) : CloseOp → CloseOutcome
  | .explicitClose ok1 => Y_fitsio_close_file obj ok1
  | .implicitFree ok1 => yfits_free obj ok1

/-- Run a sequence of close-path invocations, collecting every underlying
stream passed to `fits_close_file`. -/
def run_close_ops (obj : YFitsObj) : List CloseOp → YFitsObj × List Nat
  | [] => (obj, [])
  | op :: rest =>
    let o := run_close_op obj op
    let (s, cs) := run_close_ops o.state rest
    (s, o.closedFiles ++ cs)

/-! ## Checksum decoding (`Y_fitsio_decode_chksum`) -/

/-- The ones'-complement carry folding of the checksum decoder: fold the
carries of the two 16-bit accumulators back in until none remain.  The C
loop terminates after a bounded number of rounds; `fuel` dominates that
bound for every input reachable from a 16-character string. -/
def fold_carries : Nat → Int × Int → Int × Int
  | 0, hl => hl
  | n + 1, (hi, lo) =>
    let hicarry := hi / 65536
    let locarry := lo / 65536
    if hicarry = 0 ∧ locarry = 0 then (hi, lo)
    else fold_carries n (hi % 65536 + locarry, lo % 65536 + hicarry)

/-- Modelled from the spec: CFITSIO `fits_decode_chksum` on a 16-character
string, per the format's published algorithm: undo the one-place rotation,
subtract the ASCII `0` offset from each character, accumulate the four
4-character groups into two 16-bit halves, fold the carries, and
optionally complement the 32-bit result. -/
def fits_decode_chksum (ascii : List Char) (complm : Bool) : Int :=
  let cbuf : List Int :=
    (List.range 16).map
      (fun i => ((ascii.getD ((i + 1) % 16) (Char.ofNat 0)).toNat : Int) - 48)
  let hi := (List.range 4).foldl
    (fun acc j => acc + cbuf.getD (4 * j) 0 * 256 + cbuf.getD (4 * j + 1) 0) 0
  let lo := (List.range 4).foldl
    (fun acc j => acc + cbuf.getD (4 * j + 2) 0 * 256 + cbuf.getD (4 * j + 3) 0) 0
  let (hi2, lo2) := fold_carries 64 (hi, lo)
  let sum := hi2 * 65536 + lo2
  if complm then 4294967295 - sum else sum

/-- `Y_fitsio_decode_chksum` from yfitsio.c: a null string or any string
whose length is not exactly 16 characters is a hard error before any
decoding; otherwise the decoded sum is pushed. -/
def Y_fitsio_decode_chksum (ascii : Option (List Char)) (complm : Bool) :
    Except String Int :=
  match ascii with
  | none => .error "length of checksum string should be exactly 16 characters"
  | some s =>
    if s.length ≠ 16 then
      .error "length of checksum string should be exactly 16 characters"
    else .ok (fits_decode_chksum s complm)

/-! ## Theorems -/

/-- Claim C9: for every input string whose length is not exactly 16
characters (including the null/absent string), checksum decoding fails with
a hard error before any decoding is attempted; decoding is only performed
on exactly-16-character inputs. -/
theorem C9_decode_chksum_length_gate :
    ∀ (ascii : Option (List Char)) (complm : Bool),
      ((ascii = none ∨ ∀ s, ascii = some s → s.length ≠ 16) →
        Y_fitsio_decode_chksum ascii complm =
          .error "length of checksum string should be exactly 16 characters")
      ∧ (∀ s, ascii = some s → s.length = 16 →
          Y_fitsio_decode_chksum ascii complm
            = .ok (fits_decode_chksum s complm)) := by
  intro ascii complm
  constructor
  · intro h
    cases ascii with
    | none => rfl
    | some s =>
      rcases h with h | h
      · cases h
      · have hs := h s rfl
        simp [Y_fitsio_decode_chksum, hs]
  · intro s hs hlen
    subst hs
    simp [Y_fitsio_decode_chksum, hlen]

/-- Witness for C9: the all-zeros string of length 16 decodes (to the zero
sum), while a 15-character string is rejected. -/
theorem C9_decode_chksum_witness :
    Y_fitsio_decode_chksum (some (List.replicate 16 '0')) false = .ok 0
      ∧ Y_fitsio_decode_chksum (some (List.replicate 15 '0')) false
        = .error "length of checksum string should be exactly 16 characters" := by
  constructor
  · have h := (C9_decode_chksum_length_gate (some (List.replicate 16 '0'))
      false).2 (List.replicate 16 '0') rfl (by decide)
    rw [h]; decide
  · exact (C9_decode_chksum_length_gate (some (List.replicate 15 '0')) false).1
      (Or.inr (by intro s hs; cases hs; decide))

/-- Counterexample to claim C3 as stated: HDU number `0` lies outside
`[1, count]`, yet in probe (function-call) mode the source raises the hard
error `invalid HDU number` instead of returning the not-found sentinel
`-1`. -/
theorem C3_counterexample :
    Y_fitsio_movabs_hdu [0] 0 false = .error "invalid HDU number"
      ∧ Y_fitsio_movabs_hdu [0] 0 false ≠ .ok (-1) := by
  constructor
  · decide
  · decide

/-- Claim C3 (amended): a non-positive HDU number is a hard error in both
modes; for `n ≥ 1` beyond the unit count, probe mode returns the sentinel
`-1` and strict (subroutine) mode raises; for `n` within `[1, count]` the
move lands on HDU `n` and returns its type. -/
theorem C3_movabs_hdu :
    ∀ (hduTypes : List Int) (n : Int) (subroutine : Bool),
      (n ≤ 0 →
        Y_fitsio_movabs_hdu hduTypes n subroutine = .error "invalid HDU number")
      ∧ (0 < n → (hduTypes.length : Int) < n →
          Y_fitsio_movabs_hdu hduTypes n false = .ok (-1))
      ∧ (0 < n → (hduTypes.length : Int) < n →
          Y_fitsio_movabs_hdu hduTypes n true = .error "BAD_HDU_NUM")
      ∧ (1 ≤ n → n ≤ (hduTypes.length : Int) →
          Y_fitsio_movabs_hdu hduTypes n subroutine
            = .ok (hduTypes.getD (n.toNat - 1) 0)) := by
  intro hduTypes n subroutine
  refine ⟨?_, ?_, ?_, ?_⟩
  · intro hn
    unfold Y_fitsio_movabs_hdu
    rw [if_pos hn]
  · intro h1 h2
    unfold Y_fitsio_movabs_hdu fits_movabs_hdu
    rw [if_neg (by omega), if_neg (by omega)]
    simp
  · intro h1 h2
    unfold Y_fitsio_movabs_hdu fits_movabs_hdu
    rw [if_neg (by omega), if_neg (by omega)]
    simp
  · intro h1 h2
    unfold Y_fitsio_movabs_hdu fits_movabs_hdu
    rw [if_neg (by omega), if_pos ⟨h1, h2⟩]

/-- Witness for C3 (amended): on a two-HDU file, probing HDU 3 yields the
sentinel, strictly moving to HDU 3 raises, moving to HDU 2 reports its
type, and HDU 0 is a hard error even when probing. -/
theorem C3_movabs_hdu_witness :
    Y_fitsio_movabs_hdu [0, 2] 3 false = .ok (-1)
      ∧ Y_fitsio_movabs_hdu [0, 2] 3 true = .error "BAD_HDU_NUM"
      ∧ Y_fitsio_movabs_hdu [0, 2] 2 false = .ok 2
      ∧ Y_fitsio_movabs_hdu [0, 2] 0 false = .error "invalid HDU number" := by
  refine ⟨?_, ?_, ?_, ?_⟩
  · exact (C3_movabs_hdu [0, 2] 3 false).2.1 (by decide) (by decide)
  · exact (C3_movabs_hdu [0, 2] 3 true).2.2.1 (by decide) (by decide)
  · have h := (C3_movabs_hdu [0, 2] 2 false).2.2.2 (by decide) (by decide)
    rw [h]; decide
  · exact (C3_movabs_hdu [0, 2] 0 false).1 (by decide)

/-- Helper: a run of close-path invocations closes the underlying stream
at most once, and not at all when the handle is already closed. -/
theorem run_close_ops_once : ∀ (ops : List CloseOp) (obj : YFitsObj),
    (run_close_ops obj ops).2.length ≤ if obj.fptr.isSome then 1 else 0 := by
  intro ops
  induction ops with
  | nil => intro obj; cases h : obj.fptr <;> simp [run_close_ops]
  | cons op rest ih =>
    intro obj
    have hnone : (run_close_ops ⟨none⟩ rest).2 = [] := by
      have h := ih ⟨none⟩
      simpa using h
    rcases obj with ⟨_ | f⟩
    · rcases op with ok1 | ok1 <;>
        simp [run_close_ops, run_close_op, Y_fitsio_close_file, yfits_free,
          hnone]
    · rcases op with ok1 | ok1 <;>
        simp [run_close_ops, run_close_op, Y_fitsio_close_file, yfits_free,
          hnone]

/-- Claim C8: closing is asymmetric between the explicit and implicit
paths.  A second explicit close of a closed handle is a no-op; an explicit
close whose underlying close fails raises; the destructor never raises and
only logs failures; every path marks the handle closed when it attempts
the underlying close, so any sequence of closes releases the underlying
stream at most once. -/
theorem C8_close_asymmetry :
    (∀ ok1, Y_fitsio_close_file ⟨none⟩ ok1 = ⟨⟨none⟩, [], [], .ok ()⟩)
    ∧ (∀ f : Nat,
        (Y_fitsio_close_file ⟨some f⟩ false).result = .error "fits close error"
          ∧ (Y_fitsio_close_file ⟨some f⟩ false).state.fptr = none)
    ∧ (∀ (obj : YFitsObj) (ok1 : Bool), (yfits_free obj ok1).result = .ok ())
    ∧ (∀ f : Nat, (yfits_free ⟨some f⟩ false).log ≠ []
        ∧ (yfits_free ⟨some f⟩ false).state.fptr = none)
    ∧ (∀ (obj : YFitsObj) (op : CloseOp),
        (run_close_op obj op).closedFiles ≠ [] →
          obj.fptr.isSome ∧ (run_close_op obj op).state.fptr = none)
    ∧ (∀ (obj : YFitsObj) (ops : List CloseOp),
        (run_close_ops obj ops).2.length ≤ 1) := by
  refine ⟨?_, ?_, ?_, ?_, ?_, ?_⟩
  · intro ok1; rfl
  · intro f; exact ⟨rfl, rfl⟩
  · intro obj ok1
    rcases obj with ⟨_ | f⟩ <;> rfl
  · intro f; exact ⟨by simp [yfits_free], rfl⟩
  · intro obj op
    rcases obj with ⟨_ | f⟩ <;> rcases op with ok1 | ok1 <;>
      simp [run_close_op, Y_fitsio_close_file, yfits_free]
  · intro obj ops
    have h := run_close_ops_once ops obj
    have h2 : (if obj.fptr.isSome then 1 else 0) ≤ 1 := by split <;> omega
    omega

/-- Witness for C8: a concrete double-close sequence — a failing explicit
close followed by the destructor — closes the underlying stream exactly
once, and the destructor on the already-closed handle reports success. -/
theorem C8_close_asymmetry_witness :
    (run_close_ops ⟨some 7⟩ [.explicitClose false, .implicitFree true]).2 = [7]
      ∧ (yfits_free ⟨some 7⟩ false).result = .ok ()
      ∧ Y_fitsio_close_file ⟨none⟩ true = ⟨⟨none⟩, [], [], .ok ()⟩ := by
  refine ⟨by decide, ?_, ?_⟩
  · exact C8_close_asymmetry.2.2.1 ⟨some 7⟩ false
  · exact C8_close_asymmetry.1 true

/-- Helper: inversion for `check_ncols` succeeding. -/
theorem check_ncols_ok_inv : ∀ t n k : Int, check_ncols t n = .ok k →
    (0 < t ∧ k = t ∧ n = t) ∨ (t ≤ 0 ∧ k = n) := by
  intro t n k h
  unfold check_ncols at h
  split_ifs at h with h1 h2 h3
  · injection h with h4
    push_neg at h2
    omega
  · injection h with h4
    omega

/-- Helper: `check_ncols` adopts the length of the first given array. -/
theorem check_ncols_adopt (n : Int) (h1 : 0 < n) (h2 : n < 2 ^ 31) :
    check_ncols (-1) n = .ok n := by
  unfold check_ncols
  rw [if_neg (by omega), if_neg (by omega)]

/-- Helper: `check_ncols` accepts a matching length. -/
theorem check_ncols_same (t : Int) (h : 0 < t) : check_ncols t t = .ok t := by
  unfold check_ncols
  rw [if_pos h, if_neg (by omega)]

/-- Helper: `check_ncols` rejects a differing length. -/
theorem check_ncols_diff (t n : Int) (h : 0 < t) (hne : t ≠ n) :
    check_ncols t n = .error "number of columns mismatch" := by
  unfold check_ncols
  rw [if_pos h, if_pos hne]

/-- Claim C7: when creating a table the column count is derived from the
longest of the names, formats and units arrays (their lengths must all
agree, so the longest is the common length), and any length mismatch among
the given (necessarily non-empty) arrays is a hard error before the table
is created. -/
theorem C7_create_tbl_column_count :
    ∀ (a b : Int) (u : Option Int),
      (0 < a → ∀ k, Y_fitsio_create_tbl a b u = .ok k →
        k = a ∧ b = a ∧ ∀ v, u = some v → v = a)
      ∧ (0 < a → a < 2 ^ 31 → b ≠ a →
          Y_fitsio_create_tbl a b u = .error "number of columns mismatch")
      ∧ (∀ v, 0 < a → a < 2 ^ 31 → u = some v → b = a → v ≠ a →
          Y_fitsio_create_tbl a b u = .error "number of columns mismatch")
      ∧ (0 < a → a < 2 ^ 31 → b = a → (u = none ∨ u = some a) →
          Y_fitsio_create_tbl a b u = .ok a
            ∧ a = max a (max b (u.getD a))) := by
  intro a b u
  refine ⟨?_, ?_, ?_, ?_⟩
  · intro ha k hk
    unfold Y_fitsio_create_tbl at hk
    split at hk
    · cases hk
    · rename_i t1 h1
      split at hk
      · cases hk
      · rename_i t2 h2
        rcases check_ncols_ok_inv _ _ _ h1 with ⟨h, _, _⟩ | ⟨_, ht1⟩
        · omega
        · subst ht1
          rcases check_ncols_ok_inv _ _ _ h2 with ⟨_, ht2, hba⟩ | ⟨hneg, _⟩
          · subst ht2
            cases u with
            | none =>
              cases hk
              exact ⟨rfl, hba, by intro v hv; cases hv⟩
            | some v =>
              rcases check_ncols_ok_inv _ _ _ hk with ⟨_, hk2, hva⟩ | ⟨hneg, _⟩
              · exact ⟨hk2, hba, by intro w hw; cases hw; exact hva⟩
              · omega
          · omega
  · intro h1 h2 hb
    unfold Y_fitsio_create_tbl
    rw [check_ncols_adopt a h1 h2]
    dsimp only
    rw [check_ncols_diff a b h1 (Ne.symm hb)]
  · intro v h1 h2 hv hb hva
    subst hv
    unfold Y_fitsio_create_tbl
    rw [hb, check_ncols_adopt a h1 h2]
    dsimp only
    rw [check_ncols_same a h1]
    dsimp only
    rw [check_ncols_diff a v h1 (Ne.symm hva)]
  · intro h1 h2 hb hu
    unfold Y_fitsio_create_tbl
    rw [hb, check_ncols_adopt a h1 h2]
    dsimp only
    rw [check_ncols_same a h1]
    dsimp only
    rcases hu with hu | hu <;> subst hu
    · exact ⟨rfl, by simp [hb]⟩
    · dsimp only
      rw [check_ncols_same a h1]
      exact ⟨rfl, by simp [hb]⟩

/-- Witness for C7: three equal-length arrays give that common (longest)
length; a mismatched formats array is rejected. -/
theorem C7_create_tbl_witness :
    Y_fitsio_create_tbl 3 3 (some 3) = .ok 3
      ∧ Y_fitsio_create_tbl 3 2 none = .error "number of columns mismatch"
      ∧ (∀ k, Y_fitsio_create_tbl 3 3 (some 3) = .ok k → k = 3) := by
  refine ⟨?_, ?_, ?_⟩
  · exact ((C7_create_tbl_column_count 3 3 (some 3)).2.2.2 (by decide)
      (by decide) rfl (Or.inr rfl)).1
  · exact (C7_create_tbl_column_count 3 2 none).2.1 (by decide) (by decide)
      (by decide)
  · intro k hk
    exact ((C7_create_tbl_column_count 3 3 (some 3)).1 (by decide) k hk).1

/-- Helper: template matching only depends on the case-folded codes. -/
theorem column_matches_fold : ∀ (names names2 : List (List Char))
    (s s2 : List Char) (k : Int),
    foldName false s = foldName false s2 →
    names.map (foldName false) = names2.map (foldName false) →
    column_matches_from false s names k
      = column_matches_from false s2 names2 k := by
  intro names
  induction names with
  | nil =>
    intro names2 s s2 k _ hn
    cases names2 with
    | nil => rfl
    | cons _ _ => simp at hn
  | cons nm rest ih =>
    intro names2 s s2 k hs hn
    cases names2 with
    | nil => simp at hn
    | cons nm2 rest2 =>
      simp only [List.map_cons, List.cons.injEq] at hn
      obtain ⟨h1, h2⟩ := hn
      unfold column_matches_from
      have hm : name_matches false s nm = name_matches false s2 nm2 := by
        unfold name_matches
        rw [hs, h1]
      rw [hm, ih rest2 s s2 (k + 1) hs h2]

/-- Claim C10: every table data operation that designates its column by
name resolves it with case-insensitivity hard-wired, and both an ambiguous
and an unmatched name are hard errors on this path (no candidate set, no
sentinel); a numeric designator outside `[1, columnCount]` is likewise a
hard error. -/
theorem C10_get_colnum_designation :
    ∀ (names : List (List Char)) (n : Int) (s : List Char),
      (1 ≤ n → n ≤ (names.length : Int) → get_colnum (.num n) names = .ok n)
      ∧ (n < 1 ∨ (names.length : Int) < n →
          get_colnum (.num n) names = .error "out of range column number")
      ∧ (s ≠ [] → column_matches false s names = [] →
          get_colnum (.name s) names = .error "column name not found")
      ∧ (∀ c, s ≠ [] → column_matches false s names = [c] →
          get_colnum (.name s) names = .ok c)
      ∧ (s ≠ [] → 2 ≤ (column_matches false s names).length →
          get_colnum (.name s) names = .error "COL_NOT_UNIQUE")
      ∧ (∀ (s2 : List Char) (names2 : List (List Char)),
          foldName false s = foldName false s2 →
          names.map (foldName false) = names2.map (foldName false) →
          get_colnum (.name s) names = get_colnum (.name s2) names2) := by
  intro names n s
  refine ⟨?_, ?_, ?_, ?_, ?_, ?_⟩
  · intro h1 h2
    unfold get_colnum
    dsimp only
    rw [if_neg (by omega)]
  · intro h
    unfold get_colnum
    dsimp only
    rw [if_pos (by omega)]
  · intro hs hm
    unfold get_colnum
    dsimp only
    rw [if_neg hs, hm]
  · intro c hs hm
    unfold get_colnum
    dsimp only
    rw [if_neg hs, hm]
  · intro hs hlen
    rcases hcm : column_matches false s names with _ | ⟨c1, _ | ⟨c2, rest⟩⟩
    · rw [hcm] at hlen; simp at hlen
    · rw [hcm] at hlen; simp at hlen
    · unfold get_colnum
      dsimp only
      rw [if_neg hs, hcm]
  · intro s2 names2 hs hn
    have hz : s = [] ↔ s2 = [] := by
      constructor <;> intro h <;> subst h
      · have : foldName false s2 = [] := hs.symm
        simpa [foldName] using this
      · have : foldName false s = [] := hs
        simpa [foldName] using this
    unfold get_colnum
    dsimp only
    by_cases h0 : s = []
    · rw [if_pos h0, if_pos (hz.mp h0)]
    · rw [if_neg h0, if_neg (fun h => h0 (hz.mpr h))]
      unfold column_matches
      rw [column_matches_fold names names2 s s2 1 hs hn]

/-- Witness for C10: numeric designators are range-checked; a lower-case
name finds an upper-case column (case-insensitive); an ambiguous or
unmatched name is a hard error. -/
theorem C10_get_colnum_witness :
    get_colnum (.num 2) [['A'], ['B']] = .ok 2
      ∧ get_colnum (.num 3) [['A'], ['B']] = .error "out of range column number"
      ∧ get_colnum (.name ['f', 'l', 'u', 'x']) [['F', 'L', 'U', 'X']] = .ok 1
      ∧ get_colnum (.name ['F', 'L', 'U', 'X'])
          [['F', 'L', 'U', 'X'], ['F', 'L', 'U', 'X', '_', 'E', 'R', 'R']]
          = .error "COL_NOT_UNIQUE"
      ∧ get_colnum (.name ['Z']) [['A']] = .error "column name not found" := by
  refine ⟨?_, ?_, ?_, ?_, ?_⟩
  · exact (C10_get_colnum_designation [['A'], ['B']] 2 ['Z']).1 (by decide)
      (by decide)
  · exact (C10_get_colnum_designation [['A'], ['B']] 3 ['Z']).2.1
      (by decide)
  · exact (C10_get_colnum_designation [['F', 'L', 'U', 'X']] 1
      ['f', 'l', 'u', 'x']).2.2.2.1 1 (by decide) (by decide)
  · exact (C10_get_colnum_designation
      [['F', 'L', 'U', 'X'], ['F', 'L', 'U', 'X', '_', 'E', 'R', 'R']] 1
      ['F', 'L', 'U', 'X']).2.2.2.2.1 (by decide) (by decide)
  · exact (C10_get_colnum_designation [['A']] 1 ['Z']).2.2.1 (by decide)
      (by decide)

/-- Helper: the counting loop counts the remaining matches plus one. -/
theorem colnum_count_loop_spec : ∀ (l : List Int) (n : Nat),
    colnum_count_loop l n = n + l.length + 1 := by
  intro l
  induction l with
  | nil => intro n; rfl
  | cons c rest ih =>
    intro n
    unfold colnum_count_loop
    rw [ih]
    simp
    omega

/-- Helper: the filling loop reproduces exactly the match list. -/
theorem colnum_fill_loop_spec : ∀ l : List Int,
    colnum_fill_loop l.length l = .ok l := by
  intro l
  induction l with
  | nil => rfl
  | cons c rest ih =>
    show colnum_fill_loop (rest.length + 1) (c :: rest) = _
    unfold colnum_fill_loop
    rw [ih]

/-- Helper: matched column numbers are bounded below by the running
counter. -/
theorem column_matches_from_lb : ∀ (cs : Bool) (t : List Char)
    (names : List (List Char)) (k x : Int),
    x ∈ column_matches_from cs t names k → k ≤ x := by
  intro cs t names
  induction names with
  | nil => intro k x hx; simp [column_matches_from] at hx
  | cons nm rest ih =>
    intro k x hx
    unfold column_matches_from at hx
    by_cases h : name_matches cs t nm = true
    · rw [if_pos h] at hx
      rcases List.mem_cons.mp hx with h2 | h2
      · omega
      · have := ih (k + 1) x h2; omega
    · rw [if_neg h] at hx
      have := ih (k + 1) x hx; omega

/-- Helper: matched column numbers come in strictly increasing
(declaration) order. -/
theorem column_matches_from_sorted : ∀ (cs : Bool) (t : List Char)
    (names : List (List Char)) (k : Int),
    (column_matches_from cs t names k).Pairwise (· < ·) := by
  intro cs t names
  induction names with
  | nil => intro k; simp [column_matches_from]
  | cons nm rest ih =>
    intro k
    unfold column_matches_from
    by_cases h : name_matches cs t nm = true
    · rw [if_pos h]
      refine List.Pairwise.cons ?_ (ih (k + 1))
      intro x hx
      have := column_matches_from_lb cs t rest (k + 1) x hx
      omega
    · rw [if_neg h]
      exact ih (k + 1)

/-- Claim C5: resolving a column-name template returns the nil sentinel
when nothing matches (no error raised), the column number when exactly one
matches, and the full candidate set, in declaration order, when several
match. -/
theorem C5_resolve_column_template :
    ∀ (casesen : Bool) (template : List Char) (names : List (List Char)),
      template ≠ [] →
      (column_matches casesen template names = [] →
          Y_fitsio_get_colnum casesen template names = .ok .nil)
      ∧ (∀ c, column_matches casesen template names = [c] →
          Y_fitsio_get_colnum casesen template names = .ok (.one c))
      ∧ (2 ≤ (column_matches casesen template names).length →
          Y_fitsio_get_colnum casesen template names
            = .ok (.many (column_matches casesen template names)))
      ∧ (column_matches casesen template names).Pairwise (· < ·) := by
  intro casesen template names ht
  refine ⟨?_, ?_, ?_, ?_⟩
  · intro hm
    unfold Y_fitsio_get_colnum
    rw [if_neg ht, hm]
  · intro c hm
    unfold Y_fitsio_get_colnum
    rw [if_neg ht, hm]
  · intro hlen
    rcases hcm : column_matches casesen template names with _ | ⟨c1, _ | ⟨c2, rest⟩⟩
    · rw [hcm] at hlen; simp at hlen
    · rw [hcm] at hlen; simp at hlen
    · unfold Y_fitsio_get_colnum
      rw [if_neg ht, hcm]
      dsimp only
      rw [colnum_count_loop_spec]
      have he : 0 + (c2 :: rest).length + 1 = (c1 :: c2 :: rest).length := by
        simp
      rw [he, colnum_fill_loop_spec]
  · exact column_matches_from_sorted casesen template names 1

/-- Witness for C5: template FLUX against columns FLUX and FLUX_ERR is
ambiguous and yields both candidates in declaration order; an unmatched
template yields the nil sentinel; a unique template yields its column
number. -/
theorem C5_resolve_column_witness :
    Y_fitsio_get_colnum false ['F', 'L', 'U', 'X']
        [['F', 'L', 'U', 'X'], ['F', 'L', 'U', 'X', '_', 'E', 'R', 'R']]
        = .ok (.many [1, 2])
      ∧ Y_fitsio_get_colnum false ['Z'] [['F', 'L', 'U', 'X']] = .ok .nil
      ∧ Y_fitsio_get_colnum false ['F', 'L', 'U', 'X', '_', 'E', 'R', 'R']
          [['F', 'L', 'U', 'X'], ['F', 'L', 'U', 'X', '_', 'E', 'R', 'R']]
          = .ok (.one 2) := by
  refine ⟨?_, ?_, ?_⟩
  · have h := (C5_resolve_column_template false ['F', 'L', 'U', 'X']
      [['F', 'L', 'U', 'X'], ['F', 'L', 'U', 'X', '_', 'E', 'R', 'R']]
      (by decide)).2.2.1 (by decide)
    rw [h]; decide
  · exact (C5_resolve_column_template false ['Z'] [['F', 'L', 'U', 'X']]
      (by decide)).1 (by decide)
  · exact (C5_resolve_column_template false
      ['F', 'L', 'U', 'X', '_', 'E', 'R', 'R']
      [['F', 'L', 'U', 'X'], ['F', 'L', 'U', 'X', '_', 'E', 'R', 'R']]
      (by decide)).2.1 2 (by decide)

/-- Claim C6: variable-length-array columns are rejected immediately on
both the read and the write path, before any data transfer; and a column
write validates, whatever the element type, that every dimension except
possibly the last matches the column's per-cell shape exactly, failing
hard on any mismatch. -/
theorem C6_variable_length_and_write_shape :
    ∀ (coltype width : Int) (tdim srcdims : List Int) (ytype : YType)
      (nrows : Int) (tdimR : List Int) (f l : Option Int),
      (coltype < 0 →
        Y_fitsio_write_col coltype width tdim srcdims ytype
            = .error "writing variable size arrays not yet implemented"
          ∧ Y_fitsio_read_col nrows coltype width tdimR f l
            = .error "variable size arrays not yet supported")
      ∧ (0 ≤ coltype → ∀ naxes,
          write_cell_shape coltype width tdim ytype = .ok naxes →
          ((srcdims.length = naxes.length ∨ srcdims.length = naxes.length + 1) →
            leading_dims_match naxes srcdims = false →
            Y_fitsio_write_col coltype width tdim srcdims ytype
              = .error "non matching dimension(s)")
          ∧ (Y_fitsio_write_col coltype width tdim srcdims ytype = .ok () →
              leading_dims_match naxes srcdims = true
              ∧ (srcdims.length = naxes.length
                  ∨ srcdims.length = naxes.length + 1))) := by
  intro coltype width tdim srcdims ytype nrows tdimR f l
  constructor
  · intro hneg
    constructor
    · unfold Y_fitsio_write_col
      rw [if_pos hneg]
    · unfold Y_fitsio_read_col
      rw [if_pos hneg]
  · intro h0 naxes hcell
    have hW : Y_fitsio_write_col coltype width tdim srcdims ytype
        = (if srcdims.length ≠ naxes.length + 1 ∧ srcdims.length ≠ naxes.length
            then .error "incompatible number of dimensions"
           else if ¬ leading_dims_match naxes srcdims then
            .error "non matching dimension(s)"
           else .ok ()) := by
      unfold Y_fitsio_write_col
      rw [if_neg (by omega), hcell]
    constructor
    · intro hrank hmm
      rw [hW, if_neg (by omega), if_pos (by simp [hmm])]
    · intro hok
      rw [hW] at hok
      split_ifs at hok with h1 h2
      push_neg at h2
      constructor
      · exact h2
      · rcases not_and_or.mp h1 with h | h
        · push_neg at h; omega
        · push_neg at h; omega

/-- Witness for C6: a variable-length double column (equivalent type code
`-82`) is rejected on both paths; a fixed `3`-vector double column rejects
a 4-element write. -/
theorem C6_variable_length_witness :
    Y_fitsio_write_col (-82) 8 [3] [3] .ydouble
        = .error "writing variable size arrays not yet implemented"
      ∧ Y_fitsio_read_col 5 (-82) 8 [3] none none
        = .error "variable size arrays not yet supported"
      ∧ Y_fitsio_write_col 82 8 [3] [4] .ydouble
        = .error "non matching dimension(s)" := by
  refine ⟨?_, ?_, ?_⟩
  · exact ((C6_variable_length_and_write_shape (-82) 8 [3] [3] .ydouble
      5 [3] none none).1 (by decide)).1
  · exact ((C6_variable_length_and_write_shape (-82) 8 [3] [3] .ydouble
      5 [3] none none).1 (by decide)).2
  · exact (((C6_variable_length_and_write_shape 82 8 [3] [4] .ydouble
      5 [3] none none).2 (by decide) [3] (by decide)).1 (Or.inl (by decide))
      (by decide))

/-- Claim C4: a column read succeeds only when
`1 ≤ firstRow ≤ lastRow ≤ rowCount` (anything else is a hard error, never
a truncation, with `firstRow` defaulting to 1 and `lastRow` to the row
count); on success the pushed shape is the column's per-cell shape —
string columns shedding their leading character-width dimension — with a
trailing dimension equal to the number of requested rows appended exactly
when more than one row is requested. -/
theorem C4_read_col_rows_and_shape :
    ∀ (nrows coltype width : Int) (tdim : List Int) (f l : Option Int),
      0 ≤ coltype →
      (¬ (1 ≤ f.getD 1 ∧ f.getD 1 ≤ l.getD nrows ∧ l.getD nrows ≤ nrows) →
        Y_fitsio_read_col nrows coltype width tdim f l
          = .error "invalid range of rows")
      ∧ (∀ shape, Y_fitsio_read_col nrows coltype width tdim f l = .ok shape →
          (1 ≤ f.getD 1 ∧ f.getD 1 ≤ l.getD nrows ∧ l.getD nrows ≤ nrows)
          ∧ ∃ cell,
              shape = cell ++ (if 1 < l.getD nrows - f.getD 1 + 1 then
                  [l.getD nrows - f.getD 1 + 1] else [])
              ∧ (coltype = TSTRING → tdim = width :: cell)
              ∧ (coltype ≠ TSTRING →
                  cell = if tdim = [1] then [] else tdim)) := by
  intro nrows coltype width tdim f l h0
  constructor
  · intro hbad
    unfold Y_fitsio_read_col
    dsimp only
    rw [if_neg (by omega), if_pos (by omega)]
  · intro shape hok
    unfold Y_fitsio_read_col at hok
    dsimp only at hok
    rw [if_neg (by omega)] at hok
    by_cases hrange :
        f.getD 1 < 1 ∨ f.getD 1 > l.getD nrows ∨ l.getD nrows > nrows
    · rw [if_pos hrange] at hok
      cases hok
    · rw [if_neg hrange] at hok
      refine ⟨by omega, ?_⟩
      split at hok
      · cases hok
      · rename_i cell hcell
        have hcellinv : (coltype = TSTRING → tdim = width :: cell)
            ∧ (coltype ≠ TSTRING → cell = if tdim = [1] then [] else tdim) := by
          constructor
          · intro hstr
            rw [if_pos hstr] at hcell
            cases tdim with
            | nil => simp at hcell
            | cons d1 rest =>
              dsimp only at hcell
              by_cases hd : d1 ≠ width
              · rw [if_pos hd] at hcell; simp at hcell
              · rw [if_neg hd] at hcell
                injection hcell with h2
                push_neg at hd
                rw [hd, h2]
          · intro hstr
            rw [if_neg hstr] at hcell
            injection hcell with h2
            exact h2.symm
        by_cases hfl : f.getD 1 < l.getD nrows
        · rw [if_pos hfl] at hok
          by_cases hdim : Y_DIMSIZE - 1 ≤ cell.length
          · rw [if_pos hdim] at hok; cases hok
          · rw [if_neg hdim] at hok
            injection hok with hok
            exact ⟨cell, by rw [← hok, if_pos (by omega)], hcellinv.1,
              hcellinv.2⟩
        · rw [if_neg hfl] at hok
          injection hok with hok
          refine ⟨cell, ?_, hcellinv.1, hcellinv.2⟩
          rw [← hok, if_neg (by omega)]
          simp

/-- Witness for C4: a 3-vector string column of width 8 over 5 rows —
reading rows 2..4 yields shape `[3, 3]` (width stripped, trailing row
dimension appended), reading row 2 alone yields `[3]`, and rows 2..9 are
a hard error. -/
theorem C4_read_col_witness :
    Y_fitsio_read_col 5 TSTRING 8 [8, 3] (some 2) (some 4) = .ok [3, 3]
      ∧ Y_fitsio_read_col 5 TSTRING 8 [8, 3] (some 2) (some 2) = .ok [3]
      ∧ Y_fitsio_read_col 5 TSTRING 8 [8, 3] (some 2) (some 9)
        = .error "invalid range of rows" := by
  refine ⟨?_, ?_, ?_⟩
  · have h := (C4_read_col_rows_and_shape 5 TSTRING 8 [8, 3] (some 2)
      (some 4) (by decide)).2
    decide
  · decide
  · exact (C4_read_col_rows_and_shape 5 TSTRING 8 [8, 3] (some 2) (some 9)
      (by decide)).1 (by decide)

/-- Helper: `axisOK` is the negation of the per-axis rejection test of
`rect_dims`. -/
theorem axisOK_iff (f l i d : Int) :
    axisOK f l i d
      ↔ ¬ (f < 1 ∨ f > l ∨ l > d ∨ i < 1 ∨ (l - f + 1) % i ≠ 0) := by
  unfold axisOK
  constructor
  · rintro ⟨h1, h2, h3, h4, h5⟩ (h | h | h | h | h)
    · omega
    · omega
    · omega
    · omega
    · exact h h5
  · intro h
    push_neg at h
    exact ⟨by omega, by omega, by omega, by omega, h.2.2.2.2⟩

/-- Helper: when every axis is admissible, `rect_dims` succeeds and the
sub-length on axis `k` is `(last - first + 1) / stride`. -/
theorem rect_dims_ok : ∀ (fs ls js ds : List Int),
    fs.length = ls.length → fs.length = js.length → fs.length = ds.length →
    (∀ k, k < fs.length →
      axisOK (fs.getD k 0) (ls.getD k 0) (js.getD k 0) (ds.getD k 0)) →
    ∃ r, rect_dims fs ls js ds = .ok r ∧ r.length = fs.length ∧
      ∀ k, k < fs.length →
        r.getD k 0 = (ls.getD k 0 - fs.getD k 0 + 1) / js.getD k 0 := by
  intro fs
  induction fs with
  | nil =>
    intro ls js ds h1 h2 h3 _
    cases ls with
    | cons _ _ => simp at h1
    | nil =>
      cases js with
      | cons _ _ => simp at h2
      | nil =>
        cases ds with
        | cons _ _ => simp at h3
        | nil => exact ⟨[], rfl, rfl, by intro k hk; simp at hk⟩
  | cons f fs ih =>
    intro ls js ds h1 h2 h3 hOK
    cases ls with
    | nil => simp at h1
    | cons l ls =>
      cases js with
      | nil => simp at h2
      | cons i js =>
        cases ds with
        | nil => simp at h3
        | cons d ds =>
          have h0 := hOK 0 (Nat.succ_pos _)
          simp only [List.getD_cons_zero] at h0
          obtain ⟨r, hr, hlen, hget⟩ := ih ls js ds (by simpa using h1)
            (by simpa using h2) (by simpa using h3) (by
              intro k hk
              have := hOK (k + 1) (Nat.succ_lt_succ hk)
              simpa using this)
          refine ⟨(l - f + 1) / i :: r, ?_, by simp [hlen], ?_⟩
          · unfold rect_dims
            rw [if_neg ((axisOK_iff f l i d).mp h0), hr]
          · intro k hk
            cases k with
            | zero => simp
            | succ k =>
              simp only [List.getD_cons_succ]
              exact hget k (by simpa using hk)

/-- Helper: one inadmissible axis makes `rect_dims` fail hard. -/
theorem rect_dims_err : ∀ (fs ls js ds : List Int),
    fs.length = ls.length → fs.length = js.length → fs.length = ds.length →
    (∃ k, k < fs.length ∧
      ¬ axisOK (fs.getD k 0) (ls.getD k 0) (js.getD k 0) (ds.getD k 0)) →
    rect_dims fs ls js ds
      = .error "bad sub-array parameters (FIRST, LAST, INCR)" := by
  intro fs
  induction fs with
  | nil =>
    intro ls js ds _ _ _ hbad
    obtain ⟨k, hk, _⟩ := hbad
    simp at hk
  | cons f fs ih =>
    intro ls js ds h1 h2 h3 hbad
    cases ls with
    | nil => simp at h1
    | cons l ls =>
      cases js with
      | nil => simp at h2
      | cons i js =>
        cases ds with
        | nil => simp at h3
        | cons d ds =>
          unfold rect_dims
          by_cases hg : f < 1 ∨ f > l ∨ l > d ∨ i < 1 ∨ (l - f + 1) % i ≠ 0
          · rw [if_pos hg]
          · rw [if_neg hg]
            obtain ⟨k, hk, hbadk⟩ := hbad
            cases k with
            | zero =>
              exfalso
              apply hbadk
              simp only [List.getD_cons_zero]
              exact (axisOK_iff f l i d).mpr hg
            | succ k =>
              rw [ih ls js ds (by simpa using h1) (by simpa using h2)
                (by simpa using h3)
                ⟨k, by simpa using hk, by simpa using hbadk⟩]

/-- Helper: the rectangular branch of `Y_fitsio_read_img` with the stride
keyword omitted (it defaults to all ones). -/
theorem read_img_rect_none (dims : List Int) (ntot : Int) (f l : List Int)
    (h : dims.length ≠ 0) :
    Y_fitsio_read_img dims ntot (some (.vector f)) (some (.vector l)) none none
      = (if f.length ≠ dims.length then
           .error "bad number of coordinates for keyword FIRST"
         else if l.length ≠ dims.length then
           .error "bad number of coordinates for keyword LAST"
         else
           match rect_dims f l (List.replicate dims.length 1) dims with
           | .ok sub => .ok (.rect sub)
           | .error e => .error e) := by
  unfold Y_fitsio_read_img
  norm_num [h, yarg_elems]

/-- Helper: the rectangular branch of `Y_fitsio_read_img` with an explicit
stride vector. -/
theorem read_img_rect_some (dims : List Int) (ntot : Int) (f l v : List Int)
    (h : dims.length ≠ 0) :
    Y_fitsio_read_img dims ntot (some (.vector f)) (some (.vector l))
        (some (.vector v)) none
      = (if f.length ≠ dims.length then
           .error "bad number of coordinates for keyword FIRST"
         else if l.length ≠ dims.length then
           .error "bad number of coordinates for keyword LAST"
         else if v.length ≠ dims.length then
           .error "bad number of coordinates for keyword INCR"
         else
           match rect_dims f l v dims with
           | .ok sub => .ok (.rect sub)
           | .error e => .error e) := by
  unfold Y_fitsio_read_img
  norm_num [h, yarg_elems]
  split_ifs <;> rfl

/-- Helper: giving FIRST without LAST (and no NUMBER) is the bad-selector
error. -/
theorem read_img_first_only (dims : List Int) (ntot : Int) (f : List Int)
    (h : dims.length ≠ 0) :
    Y_fitsio_read_img dims ntot (some (.vector f)) none none none
      = .error "bad combination of keywords FIRST, LAST, INCR, or NUMBER" := by
  unfold Y_fitsio_read_img
  norm_num [h]

/-- Helper: giving LAST without FIRST is the bad-selector error. -/
theorem read_img_last_only (dims : List Int) (ntot : Int) (l : List Int)
    (h : dims.length ≠ 0) :
    Y_fitsio_read_img dims ntot none (some (.vector l)) none none
      = .error "bad combination of keywords FIRST, LAST, INCR, or NUMBER" := by
  unfold Y_fitsio_read_img
  norm_num [h]

/-- Claim C2: a rectangular sub-array read requires per-axis
`1 ≤ first ≤ last ≤ axisLen`, `stride ≥ 1` and
`(last - first + 1) % stride = 0`, failing hard otherwise; on success the
shape on axis `k` is `(last - first + 1) / stride`; the stride defaults to
all ones when omitted; FIRST and LAST must both be given; and a vector
whose length differs from the axis count is a hard error. -/
theorem C2_read_img_subarray :
    ∀ (dims : List Int) (ntot : Int) (f l : List Int)
      (incr : Option (List Int)),
      0 < dims.length →
      (f.length ≠ dims.length →
        Y_fitsio_read_img dims ntot (some (.vector f)) (some (.vector l))
            (incr.map .vector) none
          = .error "bad number of coordinates for keyword FIRST")
      ∧ (f.length = dims.length → l.length ≠ dims.length →
          Y_fitsio_read_img dims ntot (some (.vector f)) (some (.vector l))
              (incr.map .vector) none
            = .error "bad number of coordinates for keyword LAST")
      ∧ (∀ v, incr = some v → f.length = dims.length →
          l.length = dims.length → v.length ≠ dims.length →
          Y_fitsio_read_img dims ntot (some (.vector f)) (some (.vector l))
              (incr.map .vector) none
            = .error "bad number of coordinates for keyword INCR")
      ∧ (f.length = dims.length → l.length = dims.length →
          (incr.getD (List.replicate dims.length 1)).length = dims.length →
          ((∀ k, k < dims.length →
              axisOK (f.getD k 0) (l.getD k 0)
                ((incr.getD (List.replicate dims.length 1)).getD k 0)
                (dims.getD k 0)) →
            ∃ r, Y_fitsio_read_img dims ntot (some (.vector f))
                  (some (.vector l)) (incr.map .vector) none
                = .ok (.rect r)
              ∧ r.length = dims.length
              ∧ ∀ k, k < dims.length →
                  r.getD k 0 = (l.getD k 0 - f.getD k 0 + 1)
                    / ((incr.getD (List.replicate dims.length 1)).getD k 0))
          ∧ ((∃ k, k < dims.length ∧
              ¬ axisOK (f.getD k 0) (l.getD k 0)
                ((incr.getD (List.replicate dims.length 1)).getD k 0)
                (dims.getD k 0)) →
            Y_fitsio_read_img dims ntot (some (.vector f)) (some (.vector l))
                (incr.map .vector) none
              = .error "bad sub-array parameters (FIRST, LAST, INCR)"))
      ∧ (Y_fitsio_read_img dims ntot (some (.vector f)) none none none
          = .error "bad combination of keywords FIRST, LAST, INCR, or NUMBER")
      ∧ (Y_fitsio_read_img dims ntot none (some (.vector l)) none none
          = .error "bad combination of keywords FIRST, LAST, INCR, or NUMBER")
      := by
  intro dims ntot f l incr h
  refine ⟨?_, ?_, ?_, ?_, ?_, ?_⟩
  · intro hf
    cases incr with
    | none =>
      rw [Option.map_none', read_img_rect_none dims ntot f l (by omega),
        if_pos hf]
    | some v =>
      rw [Option.map_some', read_img_rect_some dims ntot f l v (by omega),
        if_pos hf]
  · intro hf hl
    cases incr with
    | none =>
      rw [Option.map_none', read_img_rect_none dims ntot f l (by omega),
        if_neg (by omega), if_pos hl]
    | some v =>
      rw [Option.map_some', read_img_rect_some dims ntot f l v (by omega),
        if_neg (by omega), if_pos hl]
  · intro v hv hf hl hvlen
    subst hv
    rw [Option.map_some', read_img_rect_some dims ntot f l v (by omega),
      if_neg (by omega), if_neg (by omega), if_pos hvlen]
  · intro hf hl hip
    constructor
    · intro hax
      cases incr with
      | none =>
        simp only [Option.getD_none] at hax hip ⊢
        obtain ⟨r, hr, hlen, hget⟩ := rect_dims_ok f l
          (List.replicate dims.length 1) dims (by omega) (by omega)
          (by omega) (fun k hk => hax k (by omega))
        refine ⟨r, ?_, hlen.trans hf, fun k hk => hget k (by omega)⟩
        rw [Option.map_none', read_img_rect_none dims ntot f l (by omega),
          if_neg (by omega), if_neg (by omega), hr]
      | some v =>
        simp only [Option.getD_some] at hax hip ⊢
        obtain ⟨r, hr, hlen, hget⟩ := rect_dims_ok f l v dims (by omega)
          (by omega) (by omega) (fun k hk => hax k (by omega))
        refine ⟨r, ?_, hlen.trans hf, fun k hk => hget k (by omega)⟩
        rw [Option.map_some', read_img_rect_some dims ntot f l v (by omega),
          if_neg (by omega), if_neg (by omega), if_neg (by omega), hr]
    · intro hbad
      cases incr with
      | none =>
        simp only [Option.getD_none] at hbad hip
        obtain ⟨k, hk, hb⟩ := hbad
        rw [Option.map_none', read_img_rect_none dims ntot f l (by omega),
          if_neg (by omega), if_neg (by omega),
          rect_dims_err f l (List.replicate dims.length 1) dims (by omega)
            (by omega) (by omega) ⟨k, by omega, hb⟩]
      | some v =>
        simp only [Option.getD_some] at hbad hip
        obtain ⟨k, hk, hb⟩ := hbad
        rw [Option.map_some', read_img_rect_some dims ntot f l v (by omega),
          if_neg (by omega), if_neg (by omega), if_neg (by omega),
          rect_dims_err f l v dims (by omega) (by omega) (by omega)
            ⟨k, by omega, hb⟩]
  · exact read_img_first_only dims ntot f (by omega)
  · exact read_img_last_only dims ntot l (by omega)

/-- Witness for C2: on a 10×10 image, first `[2,2]`, last `[4,6]` with the
stride omitted reads a `[3,5]` sub-array; with stride `[1,2]` the second
axis fails the divisibility test; FIRST alone is the bad-selector error. -/
theorem C2_read_img_witness :
    (∃ r, Y_fitsio_read_img [10, 10] 100 (some (.vector [2, 2]))
        (some (.vector [4, 6])) none none = .ok (.rect r)
        ∧ r.length = 2
        ∧ ∀ k, k < 2 → r.getD k 0
            = (([4, 6].getD k 0 : Int) - [2, 2].getD k 0 + 1)
              / (List.replicate 2 (1 : Int)).getD k 0)
      ∧ Y_fitsio_read_img [10, 10] 100 (some (.vector [2, 2]))
          (some (.vector [4, 6])) none none = .ok (.rect [3, 5])
      ∧ Y_fitsio_read_img [10, 10] 100 (some (.vector [2, 2]))
          (some (.vector [4, 6])) (some (.vector [1, 2])) none
        = .error "bad sub-array parameters (FIRST, LAST, INCR)"
      ∧ Y_fitsio_read_img [10, 10] 100 (some (.vector [2, 2])) none none none
        = .error "bad combination of keywords FIRST, LAST, INCR, or NUMBER" := by
  refine ⟨?_, by decide, ?_, ?_⟩
  · exact ((C2_read_img_subarray [10, 10] 100 [2, 2] [4, 6] none
      (by decide)).2.2.2.1 (by decide) (by decide) (by decide)).1
      (by
        intro k hk
        rcases k with _ | _ | k
        · decide
        · decide
        · simp at hk
          omega)
  · exact ((C2_read_img_subarray [10, 10] 100 [2, 2] [4, 6] (some [1, 2])
      (by decide)).2.2.2.1 (by decide) (by decide) (by decide)).2
      ⟨1, by decide, by decide⟩
  · exact (C2_read_img_subarray [10, 10] 100 [2, 2] [4, 6] none
      (by decide)).2.2.2.2.1

/-- Claim C1: value-type inference on a trimmed keyword-value token follows
the lexical grammar — the single characters `T`/`t` and `F`/`f` are
logicals; a token enclosed in apostrophes (length at least 2) is a string
with doubled apostrophes un-escaped; a token starting with a parenthesis
parses as a complex pair `(re , im)` (or fails, never any other type); in
the remaining (numeric) branch the presence of `.`, `E` or `e` selects the
real parse, `D`/`d` is rewritten to `E` first, no marker selects the
integer parse, and any unconsumed tail after the numeric parse — e.g. the
unquoted token `abc` — is the hard error `invalid keyword value`. -/
theorem C1_value_type_inference :
    (push_key_value (some ['T']) = .ok (.logical true)
      ∧ push_key_value (some ['t']) = .ok (.logical true)
      ∧ push_key_value (some ['F']) = .ok (.logical false)
      ∧ push_key_value (some ['f']) = .ok (.logical false))
    ∧ (∀ s : List Char, trim_string s = s → 2 ≤ s.length →
        s.head? = some chQuote → s.getLast? = some chQuote →
        push_key_value (some s) = .ok (.str (ffc2s s)))
    ∧ (push_key_value
        (some (chQuote :: 'i' :: 't' :: chQuote :: chQuote :: 's' :: [chQuote]))
        = .ok (.str ('i' :: 't' :: chQuote :: ['s'])))
    ∧ (push_key_value (some (chOpen :: '1' :: '.' :: '5' :: chSpace ::
          chComma :: chSpace :: '-' :: '2' :: '.' :: '0' :: [chClose]))
        = .ok (.complex ⟨15, -1⟩ ⟨-20, -1⟩)
        ∧ decVal ⟨15, -1⟩ = 3 / 2 ∧ decVal ⟨-20, -1⟩ = -2)
    ∧ (∀ s : List Char, trim_string s = s → s.head? = some chOpen →
        (∃ re im, push_key_value (some s) = .ok (.complex re im))
        ∨ push_key_value (some s) = .error "invalid keyword value")
    ∧ (push_key_value (some ('1' :: '.' :: '0' :: 'D' :: ['5']))
        = .ok (.real ⟨10, 4⟩)
        ∧ decVal ⟨10, 4⟩ = 100000)
    ∧ (∀ (s : List Char) (c : Char) (rest : List Char),
        trim_string s = s → s = c :: rest →
        c ≠ 'T' → c ≠ 't' → c ≠ 'F' → c ≠ 'f' → c ≠ chQuote → c ≠ chOpen →
        push_key_value (some s) = numeric_branch s)
    ∧ (∀ s : List Char, hasRealMarker s = true →
        numeric_branch s = (match strtod_model (normalizeD s) with
          | (some x, []) => .ok (.real x)
          | _ => .error "invalid keyword value"))
    ∧ (∀ s : List Char, hasRealMarker s = false →
        numeric_branch s = (match strtol_model s with
          | (some n, []) => .ok (.integer n)
          | _ => .error "invalid keyword value"))
    ∧ (push_key_value (some ('a' :: 'b' :: ['c']))
        = .error "invalid keyword value") := by
  refine ⟨⟨by decide, by decide, by decide, by decide⟩, ?_, by decide,
    ⟨by decide, by norm_num [decVal], by norm_num [decVal]⟩, ?_,
    ⟨by decide, by norm_num [decVal]⟩, ?_, ?_, ?_, by decide⟩
  · intro s htrim hlen hhead hlast
    cases s with
    | nil => simp at hhead
    | cons c rest =>
      have hc : c = chQuote := by simpa using hhead
      subst hc
      unfold push_key_value
      dsimp only
      rw [htrim]
      dsimp only
      rw [if_neg (by decide), if_neg (by decide), if_pos rfl,
        if_pos ⟨hlen, hlast⟩]
  · intro s htrim hhead
    cases s with
    | nil => simp at hhead
    | cons c rest =>
      have hc : c = chOpen := by simpa using hhead
      subst hc
      unfold push_key_value
      dsimp only
      rw [htrim]
      dsimp only
      rw [if_neg (by decide), if_neg (by decide), if_neg (by decide),
        if_pos rfl]
      cases hsc : scan_complex (chOpen :: rest).tail with
      | none =>
        right
        rfl
      | some p =>
        obtain ⟨re, im⟩ := p
        left
        exact ⟨re, im, rfl⟩
  · intro s c rest htrim hs hT ht hF hf hq hp
    subst hs
    unfold push_key_value
    dsimp only
    rw [htrim]
    dsimp only
    rw [if_neg ?_, if_neg ?_, if_neg hq, if_neg hp]
    · rintro (h | h)
      · exact hF h
      · exact hf h
    · rintro (h | h)
      · exact hT h
      · exact ht h
  · intro s hmark
    unfold numeric_branch
    rw [if_pos hmark]
  · intro s hmark
    unfold numeric_branch
    rw [if_neg (by simp [hmark])]

/-- Witness for C1: a quoted one-character token is recognized as that
string, and a marker-free token is parsed by the integer branch. -/
theorem C1_value_type_inference_witness :
    push_key_value (some (chQuote :: 'a' :: [chQuote])) = .ok (.str ['a'])
      ∧ numeric_branch ('4' :: ['2']) = .ok (.integer 42) := by
  constructor
  · have hs := C1_value_type_inference.2.1 (chQuote :: 'a' :: [chQuote])
      (by decide) (by decide) (by decide) (by decide)
    rw [hs]; decide
  · have hn := C1_value_type_inference.2.2.2.2.2.2.2.2.1 ('4' :: ['2'])
      (by decide)
    rw [hn]; decide
